import Mathlib

/-
Shallow embedding of the eCourts scraper (captcha_solver.py, scapper.py,
database.py).  External collaborators (pytesseract OCR, the HTTP transport,
the HTML documents returned by the portal) are modelled as explicit
parameters; the control flow of the Python functions is translated
faithfully.
-/

/-- Python ASCII whitespace test used by `str.strip()` (space, tab, newline,
carriage return, vertical tab, form feed). -/
def isPySpace (c : Char) : Bool :=
  c = ' ' || c = '\t' || c = '\n' || c = '\r' || c = Char.ofNat 11 || c = Char.ofNat 12

/-- Python `str.strip()`: drop whitespace from both ends. -/
def pyStrip (s : String) : String :=
  String.mk (((s.toList.dropWhile isPySpace).reverse.dropWhile isPySpace).reverse)

/-- Python truthiness of a string: nonempty. -/
def pyTruthy (s : String) : Bool := s ≠ ""

/-- Python substring test `needle in hay` on character lists: some suffix of
`hay` starts with `needle`. -/
def hasSub (needle : List Char) : List Char → Bool
  | [] => needle.isEmpty
  | c :: rest => needle.isPrefixOf (c :: rest) || hasSub needle rest

/-- Python `needle in hay` for strings. -/
def strContains (hay needle : String) : Bool := hasSub needle.toList hay.toList

/- ===== captcha_solver.py ===== -/

/-- Cleanup in `OCRCaptchaSolver.solve_captcha_from_bytes`:
`captcha_text.strip().replace(' ', '').replace('\n', '')`.  Replacing each
single-character pattern by the empty string removes every occurrence, i.e.
filters those characters out. -/
def cleanCaptchaText (s : String) : String :=
  String.mk ((pyStrip s).toList.filter (fun c => c ≠ ' ' && c ≠ '\n'))

/-- `OCRCaptchaSolver.solve_captcha_from_bytes`.  The external OCR engine
(`pytesseract.image_to_string` on the grayscale image) is modelled by its
output `ocrRaw : Option String`; `none` models an exception inside the `try`
block (the except branch returns `None`).  On raw text the function cleans it
and accepts it only when at least 4 characters remain. -/
def solve_captcha_from_bytes (ocrRaw : Option String) : Option String :=
  match ocrRaw with
  | none => none
  | some raw =>
      let captcha_text := cleanCaptchaText raw
      if 4 ≤ captcha_text.length then some captcha_text else none

/-- `SimpleCaptchaSolver.solve_manual_captcha`: unconditionally returns the
placeholder `"1234"` (the body is a bare `return "1234"`, which cannot raise). -/
def solve_manual_captcha (_ocrRaw : Option String) : Option String :=
  some "1234"

/-- Python truthiness of an `Optional[str]` value: `None` and `""` are falsy. -/
def optTruthy (s : Option String) : Bool :=
  match s with
  | none => false
  | some t => t ≠ ""

/-- `HybridCaptchaSolver.solve_captcha`: try OCR, and if its result is falsy
(`None` or empty string) fall through to the manual solver; if that is falsy
too, return `None`. -/
def hybrid_solve_captcha (ocrRaw : Option String) : Option String :=
  let solution := solve_captcha_from_bytes ocrRaw
  if optTruthy solution then solution
  else
    let solution2 := solve_manual_captcha ocrRaw
    if optTruthy solution2 then solution2 else none

/- ===== scapper.py : topology discovery ===== -/

/-- A `<option>` element of the High Court dropdown as read by
`enumerate_high_courts`: `get_attribute("value")` may be `None`, `inner_text()`
is a string. -/
structure CourtOption where
  value : Option String
  text : String
deriving DecidableEq

/-- An entry of the court list built by `enumerate_high_courts`. -/
structure Court where
  value : String
  text : String
deriving DecidableEq

/-- `enumerate_high_courts`, given the option elements of `#sess_state_code`:
keep an option iff `val and val.strip() and val != "0"` and record
`{"value": val.strip(), "text": text.strip()}`.  The Playwright locator/page
plumbing is external and modelled away; the filter and projection are the code. -/
def courtOptionEntry (opt : CourtOption) : Option Court :=
  match opt.value with
  | none => none
  | some val =>
      if pyTruthy val && pyTruthy (pyStrip val) && val ≠ "0" then
        some { value := pyStrip val, text := pyStrip opt.text }
      else none

/-- The loop of `enumerate_high_courts` over the option elements. -/
def enumerate_high_courts (options : List CourtOption) : List Court :=
  options.filterMap courtOptionEntry

/-- A bench option as produced by the page-side extraction in
`enumerate_benches`: `{ text: o.textContent.trim(), value: o.value }`
(the text is already trimmed; a DOM option's `value` is always a string). -/
structure BenchOption where
  text : String
  value : String
deriving DecidableEq

/-- The filter in `enumerate_benches`:
`[o for o in options if o['value'].strip() and 'Select' not in o['text']]`.
The frame polling and the bounded wait for the dropdown to populate only
decide whether any options are extracted at all; the list comprehension is
the code. -/
def benchKeep (o : BenchOption) : Bool :=
  pyTruthy (pyStrip o.value) && !(strContains o.text "Select")

/-- The list comprehension of `enumerate_benches` over the extracted options. -/
def enumerate_benches (options : List BenchOption) : List BenchOption :=
  options.filter benchKeep

/- ===== scapper.py : perform_search_and_extract ===== -/

/-- One row (`<tr>`) of a results table: the text contents of its `<td>`
cells, as returned by `row.select("td")` and `get_text(strip=True)`. -/
structure Row where
  cells : List String
deriving DecidableEq

/-- A results table: its `<tr>` rows in document order
(`results_table.select("tr")`); the first row is the header. -/
structure ResultsTable where
  rows : List Row
deriving DecidableEq

/-- The dictionary appended per data row:
`{"case_number": cols[0], "party_name": cols[1], "next_date": cols[2],
"status": cols[3]}` (each via `get_text(strip=True)`). -/
structure CaseRecord where
  case_number : String
  party_name : String
  next_date : String
  status : String
deriving DecidableEq

/-- The POST payload built once per query in `perform_search_and_extract`. -/
structure Payload where
  court_code : String
  state_code : String
  court_complex_code : String
  caseStatusSearchType : String
  captcha : String
  f : String
  petres_name : String
  caseNo : String
  rgyear : String
deriving DecidableEq

/-- Payload construction from the query parameters and the resolved captcha. -/
def mkPayload (court_code state_code court_complex_code search_type query year
    captcha_solution : String) : Payload :=
  { court_code := court_code
    state_code := state_code
    court_complex_code := court_complex_code
    caseStatusSearchType :=
      if search_type = "party_name" then "CSpartyName" else "CScaseNumber"
    captcha := captcha_solution
    f := "Both"
    petres_name := if search_type = "party_name" then query else ""
    caseNo := if search_type = "case_number" then query else ""
    rgyear := year }

/-- What the portal gives back to one POST attempt: either the request raises
(`session.post` fails or `raise_for_status` sees a non-2xx), or a parsed
document, characterised by its `table#searchResults` (the primary identifier)
and its `<table id="dispTable">` (the fallback identifier). -/
inductive AttemptResponse where
  | transportError : AttemptResponse
  | page (searchResults : Option ResultsTable) (dispTable : Option ResultsTable) :
      AttemptResponse
deriving DecidableEq

/-- Reading the four fixed-position columns `cols[0] .. cols[3]` of one data
row; `none` models the `IndexError` raised when the row has fewer than 4
cells. -/
def extractRecord (cells : List String) : Option CaseRecord :=
  match cells.get? 0, cells.get? 1, cells.get? 2, cells.get? 3 with
  | some c0, some c1, some c2, some c3 =>
      some { case_number := c0, party_name := c1, next_date := c2, status := c3 }
  | _, _, _, _ => none

/-- The `for row in rows` loop of the Parse step: rows are read in order and a
row with fewer than 4 cells aborts the whole attempt with an exception
(`.error ()`); the partially built `results` list is discarded by the abort. -/
def parseRows : List Row → Except Unit (List CaseRecord)
  | [] => .ok []
  | row :: rest =>
      match extractRecord row.cells with
      | none => .error ()
      | some rec =>
          match parseRows rest with
          | .ok recs => .ok (rec :: recs)
          | .error e => .error e

/-- Outcome of one iteration of the retry loop. -/
inductive AttemptOutcome where
  | success (records : List CaseRecord) : AttemptOutcome
  | anomaly : AttemptOutcome
  | error : AttemptOutcome
deriving DecidableEq

/-- One iteration of the retry loop on a given portal response.
A transport failure raises into the `except` branch (`.error`).  On a page,
`soup.select_one("table#searchResults")` is consulted first; if it is absent
the code assigns `soup.find("table", id="dispTable")` to `results_table` but
then unconditionally sleeps and `continue`s, so the fallback table is located
yet never parsed (`.anomaly`).  With the primary table present, the header row
is skipped and the remaining rows are parsed; an `IndexError` on a short row
lands in the `except` branch (`.error`). -/
def attemptOutcome : AttemptResponse → AttemptOutcome
  | .transportError => .error
  | .page searchResults _dispTable =>
      match searchResults with
      | none => .anomaly
      | some tbl =>
          match parseRows (tbl.rows.drop 1) with
          | .ok recs => .success recs
          | .error _ => .error

/-- Observable actions of `perform_search_and_extract` and of the record-sink
interface (`database.log_search`). -/
inductive Event where
  | fetchChallenge : Event
  | resolve : Event
  | submit (payload : Payload) : Event
  | sleep2 : Event
  | logSearch : Event
deriving DecidableEq

/-- The `for attempt in range(max_retries)` loop, driven by the portal
response of each attempt (`responses.length = max_retries`).  A successful
parse returns immediately; a missing primary table sleeps ~2s and continues
(also on the last attempt, after which the loop ends and the trailing
`return []` runs); an exception sleeps and continues only when attempts
remain (`attempt < max_retries - 1`), else returns `[]`. -/
def runAttempts (payload : Payload) : List AttemptResponse → List CaseRecord × List Event
  | [] => ([], [])
  | r :: rest =>
      match attemptOutcome r with
      | .success recs => (recs, [Event.submit payload])
      | .anomaly =>
          let next := runAttempts payload rest
          (next.1, Event.submit payload :: Event.sleep2 :: next.2)
      | .error =>
          if rest.isEmpty then ([], [Event.submit payload])
          else
            let next := runAttempts payload rest
            (next.1, Event.submit payload :: Event.sleep2 :: next.2)

/-- `perform_search_and_extract`.  External effects are parameters: the
challenge-image GET is `captchaFetch` (`none` = the GET or
`raise_for_status` raised, landing in the `except` branch), the captcha
collaborator `solve_captcha` is `solver` on the fetched image bytes (`none` =
Python `None`, also covering an exception inside the solver — both paths
`return []`), and the portal response of each POST attempt is `responses`
(`responses.length = max_retries`).  The function returns the records
together with the trace of observable events. -/
def perform_search_and_extract
    (court_code state_code court_complex_code search_type query year : String)
    (solver : List Nat → Option String)
    (captchaFetch : Option (List Nat))
    (responses : List AttemptResponse) : List CaseRecord × List Event :=
  match captchaFetch with
  | none => ([], [Event.fetchChallenge])
  | some captcha_image_bytes =>
      match solver captcha_image_bytes with
      | none => ([], [Event.fetchChallenge, Event.resolve])
      | some captcha_solution =>
          if captcha_solution = "" then ([], [Event.fetchChallenge, Event.resolve])
          else
            let payload := mkPayload court_code state_code court_complex_code
              search_type query year captcha_solution
            let run := runAttempts payload responses
            (run.1, Event.fetchChallenge :: Event.resolve :: run.2)

/-- Submitted captcha texts, in submission order, read off a trace. -/
def submitCaptchas (evs : List Event) : List String :=
  evs.filterMap (fun e =>
    match e with
    | .submit p => some p.captcha
    | _ => none)

/-- Number of challenge-image fetches in a trace. -/
def countFetch (evs : List Event) : Nat := evs.count Event.fetchChallenge

/-- Number of ~2s sleeps in a trace. -/
def countSleep (evs : List Event) : Nat := evs.count Event.sleep2

/-- Number of search-outcome events (`database.log_search` calls) in a trace. -/
def countLogSearch (evs : List Event) : Nat := evs.count Event.logSearch

/- ===== helper lemmas ===== -/

/-- Every event emitted by the retry loop is a submission of the one payload
built before the loop, or a sleep. -/
lemma runAttempts_events (payload : Payload) (rs : List AttemptResponse) :
    ∀ e ∈ (runAttempts payload rs).2, e = Event.submit payload ∨ e = Event.sleep2 := by
  induction rs with
  | nil => simp [runAttempts]
  | cons r rest ih =>
      intro e he
      cases h : attemptOutcome r with
      | success recs =>
          simp [runAttempts, h] at he
          simp [he]
      | anomaly =>
          simp [runAttempts, h] at he
          rcases he with he | he | he
          · simp [he]
          · simp [he]
          · exact ih e he
      | error =>
          by_cases hrest : rest.isEmpty
          · simp [runAttempts, h, hrest] at he
            simp [he]
          · simp [runAttempts, h, hrest] at he
            rcases he with he | he | he
            · simp [he]
            · simp [he]
            · exact ih e he

/-- Any record returned by the retry loop comes from a successful parse of
some attempt's response. -/
lemma runAttempts_mem (payload : Payload) (rs : List AttemptResponse)
    (rec : CaseRecord) (hmem : rec ∈ (runAttempts payload rs).1) :
    ∃ r ∈ rs, ∃ recs, attemptOutcome r = .success recs ∧ rec ∈ recs := by
  induction rs with
  | nil => simp [runAttempts] at hmem
  | cons r rest ih =>
      cases h : attemptOutcome r with
      | success recs =>
          simp [runAttempts, h] at hmem
          exact ⟨r, by simp, recs, h, hmem⟩
      | anomaly =>
          simp [runAttempts, h] at hmem
          obtain ⟨r2, hr2, recs, hrecs, hm⟩ := ih hmem
          exact ⟨r2, by simp [hr2], recs, hrecs, hm⟩
      | error =>
          by_cases hrest : rest.isEmpty
          · simp [runAttempts, h, hrest] at hmem
          · simp [runAttempts, h, hrest] at hmem
            obtain ⟨r2, hr2, recs, hrecs, hm⟩ := ih hmem
            exact ⟨r2, by simp [hr2], recs, hrecs, hm⟩

/-- If no attempt's response parses successfully, the loop returns `[]`. -/
lemma runAttempts_all_fail (payload : Payload) (rs : List AttemptResponse)
    (hfail : ∀ r ∈ rs, ∀ recs, attemptOutcome r ≠ .success recs) :
    (runAttempts payload rs).1 = [] := by
  induction rs with
  | nil => simp [runAttempts]
  | cons r rest ih =>
      cases h : attemptOutcome r with
      | success recs => exact absurd h (hfail r (by simp) recs)
      | anomaly =>
          simp [runAttempts, h]
          exact ih (fun r2 hr2 recs => hfail r2 (by simp [hr2]) recs)
      | error =>
          by_cases hrest : rest.isEmpty
          · simp [runAttempts, h, hrest]
          · simp [runAttempts, h, hrest]
            exact ih (fun r2 hr2 recs => hfail r2 (by simp [hr2]) recs)

/-- A record of a successful parse comes from one of the parsed rows. -/
lemma parseRows_mem (rows : List Row) (recs : List CaseRecord)
    (hok : parseRows rows = .ok recs) (rec : CaseRecord) (hmem : rec ∈ recs) :
    ∃ row ∈ rows, extractRecord row.cells = some rec := by
  induction rows generalizing recs with
  | nil =>
      simp [parseRows] at hok
      subst hok
      simp at hmem
  | cons row rest ih =>
      cases hx : extractRecord row.cells with
      | none => simp [parseRows, hx] at hok
      | some r0 =>
          cases hr : parseRows rest with
          | error e => simp [parseRows, hx, hr] at hok
          | ok recs0 =>
              simp [parseRows, hx, hr] at hok
              subst hok
              rcases List.mem_cons.mp hmem with h0 | h0
              · exact ⟨row, by simp, by rw [hx, h0]⟩
              · obtain ⟨row2, hrow2, hxr⟩ := ih recs0 hr h0
                exact ⟨row2, by simp [hrow2], hxr⟩

/-- A row that extracts to a record has at least 4 cells, and the record's
four fields are exactly the first four cells. -/
lemma extractRecord_cells (cells : List String) (rec : CaseRecord)
    (h : extractRecord cells = some rec) :
    4 ≤ cells.length ∧
      cells.get? 0 = some rec.case_number ∧ cells.get? 1 = some rec.party_name ∧
      cells.get? 2 = some rec.next_date ∧ cells.get? 3 = some rec.status := by
  match cells with
  | c0 :: c1 :: c2 :: c3 :: _ =>
      simp [extractRecord] at h
      subst h
      refine ⟨by simp, ?_, ?_, ?_, ?_⟩ <;> simp
  | [] => simp [extractRecord] at h
  | [c0] => simp [extractRecord] at h
  | [c0, c1] => simp [extractRecord] at h
  | [c0, c1, c2] => simp [extractRecord] at h

/-- A successful OCR result has at least 4 characters. -/
lemma solve_captcha_from_bytes_len (x : Option String) (t : String)
    (h : solve_captcha_from_bytes x = some t) : 4 ≤ t.length := by
  cases x with
  | none => simp [solve_captcha_from_bytes] at h
  | some raw =>
      simp only [solve_captcha_from_bytes] at h
      split at h
      · next h4 =>
          injection h with he
          rw [← he]
          exact h4
      · simp at h

/-- A parse attempt over rows containing a short row fails. -/
lemma parseRows_short_row (rows : List Row) (row : Row) (hrow : row ∈ rows)
    (hshort : row.cells.length < 4) : parseRows rows = .error () := by
  induction rows with
  | nil => simp at hrow
  | cons r rest ih =>
      rcases List.mem_cons.mp hrow with h0 | h0
      · subst h0
        have hx : extractRecord row.cells = none := by
          match hc : row.cells with
          | [] => simp [extractRecord]
          | [c0] => simp [extractRecord]
          | [c0, c1] => simp [extractRecord]
          | [c0, c1, c2] => simp [extractRecord]
          | c0 :: c1 :: c2 :: c3 :: _ => rw [hc] at hshort; simp at hshort; omega
        simp [parseRows, hx]
      · have hr := ih h0
        cases hx : extractRecord r.cells with
        | none => simp [parseRows, hx]
        | some r0 => simp [parseRows, hx, hr]


/- ===== claim theorems ===== -/

/-- C5: if the captcha resolver returns no solution, `perform_search_and_extract`
returns an empty result sequence for the whole query after exactly one
FetchChallenge/Resolve cycle — the trace is exactly
`[fetchChallenge, resolve]`, so no fresh challenge is fetched, no submit is
attempted, and the `max_retries` submit/parse loop is never entered. -/
theorem captcha_unresolved_terminal (cc sc ccc st q y : String)
    (solver : List Nat → Option String) (bs : List Nat)
    (responses : List AttemptResponse) (hsolve : solver bs = none) :
    perform_search_and_extract cc sc ccc st q y solver (some bs) responses
      = ([], [Event.fetchChallenge, Event.resolve]) := by
  simp [perform_search_and_extract, hsolve]

/-- Witness for C5 at a concrete input. -/
theorem captcha_unresolved_terminal_witness :
    perform_search_and_extract "c" "s" "x" "party_name" "kumar" "2024"
      (fun _ => none) (some [0, 1])
      [AttemptResponse.transportError, AttemptResponse.transportError,
       AttemptResponse.transportError]
      = ([], [Event.fetchChallenge, Event.resolve]) :=
  captcha_unresolved_terminal "c" "s" "x" "party_name" "kumar" "2024"
    (fun _ => none) [0, 1]
    [AttemptResponse.transportError, AttemptResponse.transportError,
     AttemptResponse.transportError] rfl

/-- C6: when the cleaned OCR output is shorter than 4 characters, the OCR
strategy returns `none`, exactly as if OCR had produced no output at all, and
the hybrid resolver behaves identically to the no-output case (falling through
to the fallback strategy). -/
theorem short_ocr_discarded (raw : String)
    (hshort : (cleanCaptchaText raw).length < 4) :
    solve_captcha_from_bytes (some raw) = none ∧
      hybrid_solve_captcha (some raw) = hybrid_solve_captcha none := by
  have h1 : solve_captcha_from_bytes (some raw) = none := by
    simp [solve_captcha_from_bytes]
    omega
  have h2 : hybrid_solve_captcha (some raw) = some "1234" := by
    simp only [hybrid_solve_captcha, h1]
    rfl
  have h3 : hybrid_solve_captcha none = some "1234" := by decide
  exact ⟨h1, h2.trans h3.symm⟩

/-- Witness for C6 at a concrete input. -/
theorem short_ocr_discarded_witness :
    (cleanCaptchaText " a b \n").length < 4 ∧
      (solve_captcha_from_bytes (some " a b \n") = none ∧
        hybrid_solve_captcha (some " a b \n") = hybrid_solve_captcha none) :=
  ⟨by decide, short_ocr_discarded " a b \n" (by decide)⟩

/-- C7: on a response whose primary results table has a header row and zero
data rows, the function returns an empty record sequence on that same attempt:
the trace ends with the single submission (no sleep, no further attempt), and
the remaining retry budget `rest` is never consumed. -/
theorem empty_table_success (cc sc ccc st q y : String)
    (solver : List Nat → Option String) (bs : List Nat) (s : String) (hdr : Row)
    (dt : Option ResultsTable) (rest : List AttemptResponse)
    (hsolve : solver bs = some s) (hs : s ≠ "") :
    perform_search_and_extract cc sc ccc st q y solver (some bs)
      (AttemptResponse.page (some ⟨[hdr]⟩) dt :: rest)
      = ([], [Event.fetchChallenge, Event.resolve,
              Event.submit (mkPayload cc sc ccc st q y s)]) := by
  simp [perform_search_and_extract, hsolve, hs, runAttempts, attemptOutcome, parseRows]

/-- Witness for C7 at a concrete input. -/
theorem empty_table_success_witness :
    perform_search_and_extract "c" "s" "x" "party_name" "kumar" "2024"
      (fun _ => some "ab12") (some [0])
      [AttemptResponse.page (some ⟨[⟨["h1", "h2", "h3", "h4"]⟩]⟩) none,
       AttemptResponse.transportError, AttemptResponse.transportError]
      = ([], [Event.fetchChallenge, Event.resolve,
              Event.submit (mkPayload "c" "s" "x" "party_name" "kumar" "2024" "ab12")]) :=
  empty_table_success "c" "s" "x" "party_name" "kumar" "2024"
    (fun _ => some "ab12") [0] "ab12" ⟨["h1", "h2", "h3", "h4"]⟩ none
    [AttemptResponse.transportError, AttemptResponse.transportError] rfl (by decide)

/-- C8: with `max_retries = 3`, a primary table absent on attempts 1 and 2 but
present and parseable on attempt 3 yields the attempt-3 records as the return
value; each intermediate absence produces a ~2s sleep and a further
submission, as the trace shows. -/
theorem third_attempt_recovery (cc sc ccc st q y : String)
    (solver : List Nat → Option String) (bs : List Nat) (s : String)
    (d1 d2 d3 : Option ResultsTable) (tbl : ResultsTable) (recs : List CaseRecord)
    (hsolve : solver bs = some s) (hs : s ≠ "")
    (hparse : parseRows (tbl.rows.drop 1) = .ok recs) :
    perform_search_and_extract cc sc ccc st q y solver (some bs)
      [AttemptResponse.page none d1, AttemptResponse.page none d2,
       AttemptResponse.page (some tbl) d3]
      = (recs, [Event.fetchChallenge, Event.resolve,
                Event.submit (mkPayload cc sc ccc st q y s), Event.sleep2,
                Event.submit (mkPayload cc sc ccc st q y s), Event.sleep2,
                Event.submit (mkPayload cc sc ccc st q y s)]) := by
  have hp : parseRows tbl.rows.tail = Except.ok recs := by
    rw [← List.drop_one]
    exact hparse
  simp [perform_search_and_extract, hsolve, hs, runAttempts, attemptOutcome, hp]

/-- Witness for C8 at a concrete input. -/
theorem third_attempt_recovery_witness :
    perform_search_and_extract "c" "s" "x" "party_name" "kumar" "2024"
      (fun _ => some "ab12") (some [0])
      [AttemptResponse.page none none, AttemptResponse.page none none,
       AttemptResponse.page
         (some ⟨[⟨["h1", "h2", "h3", "h4"]⟩,
                 ⟨["W.P.123/2024", "Kumar vs State", "12-01-2025", "Pending"]⟩]⟩) none]
      = ([⟨"W.P.123/2024", "Kumar vs State", "12-01-2025", "Pending"⟩],
         [Event.fetchChallenge, Event.resolve,
          Event.submit (mkPayload "c" "s" "x" "party_name" "kumar" "2024" "ab12"),
          Event.sleep2,
          Event.submit (mkPayload "c" "s" "x" "party_name" "kumar" "2024" "ab12"),
          Event.sleep2,
          Event.submit (mkPayload "c" "s" "x" "party_name" "kumar" "2024" "ab12")]) :=
  third_attempt_recovery "c" "s" "x" "party_name" "kumar" "2024"
    (fun _ => some "ab12") [0] "ab12" none none none
    ⟨[⟨["h1", "h2", "h3", "h4"]⟩,
      ⟨["W.P.123/2024", "Kumar vs State", "12-01-2025", "Pending"]⟩]⟩
    [⟨"W.P.123/2024", "Kumar vs State", "12-01-2025", "Pending"⟩]
    rfl (by decide) rfl

/-- C9: for every OCR outcome (including failure), the hybrid resolver
returns some non-empty string and never returns absence of a solution: the
fallback strategy unconditionally returns the placeholder `"1234"`, so the
total-failure branch is unreachable. -/
theorem hybrid_never_fails (ocrRaw : Option String) :
    ∃ s, hybrid_solve_captcha ocrRaw = some s ∧ s ≠ "" := by
  cases h : solve_captcha_from_bytes ocrRaw with
  | none =>
      exact ⟨"1234", by simp [hybrid_solve_captcha, h, solve_manual_captcha, optTruthy],
        by decide⟩
  | some t =>
      have hlen : 4 ≤ t.length := solve_captcha_from_bytes_len ocrRaw t h
      have hne : t ≠ "" := by
        intro h0
        rw [h0] at hlen
        simp at hlen
      exact ⟨t, by simp [hybrid_solve_captcha, h, optTruthy, hne], hne⟩

/-- All submitted captcha texts of a retry-loop trace equal the captcha of the
one payload built before the loop. -/
lemma submitCaptchas_runAttempts (payload : Payload) (rs : List AttemptResponse) :
    submitCaptchas (runAttempts payload rs).2
      = List.replicate (submitCaptchas (runAttempts payload rs).2).length
          payload.captcha := by
  apply List.eq_replicate_of_mem
  intro b hb
  obtain ⟨e, he, hfe⟩ := List.mem_filterMap.mp hb
  rcases runAttempts_events payload rs e he with h | h
  · subst h
    simpa using hfe.symm
  · subst h
    simp at hfe

/-- The retry loop never fetches a challenge image. -/
lemma countFetch_runAttempts (payload : Payload) (rs : List AttemptResponse) :
    countFetch (runAttempts payload rs).2 = 0 := by
  unfold countFetch
  rw [List.count_eq_zero]
  intro hmem
  rcases runAttempts_events payload rs _ hmem with h | h <;> simp at h

/-- The retry loop never emits a search-outcome event. -/
lemma countLogSearch_runAttempts (payload : Payload) (rs : List AttemptResponse) :
    countLogSearch (runAttempts payload rs).2 = 0 := by
  unfold countLogSearch
  rw [List.count_eq_zero]
  intro hmem
  rcases runAttempts_events payload rs _ hmem with h | h <;> simp at h

/-- C1 counterexample: a concrete execution in which the primary table is
missing on attempt 1 and present on attempt 2.  The challenge is fetched once,
yet two submission attempts are made and attempt 2 submits exactly the captcha
text submitted by attempt 1 — a `CaptchaChallenge` is reused across
submissions, so the claim as stated is false. -/
theorem captcha_reused_counterexample :
    countFetch (perform_search_and_extract "c" "s" "x" "party_name" "kumar" "2024"
        (fun _ => some "ab12") (some [0])
        [AttemptResponse.page none none,
         AttemptResponse.page
           (some ⟨[⟨["h1", "h2", "h3", "h4"]⟩,
                   ⟨["W.P.123/2024", "Kumar vs State", "12-01-2025", "Pending"]⟩]⟩)
           none]).2 = 1 ∧
    submitCaptchas (perform_search_and_extract "c" "s" "x" "party_name" "kumar" "2024"
        (fun _ => some "ab12") (some [0])
        [AttemptResponse.page none none,
         AttemptResponse.page
           (some ⟨[⟨["h1", "h2", "h3", "h4"]⟩,
                   ⟨["W.P.123/2024", "Kumar vs State", "12-01-2025", "Pending"]⟩]⟩)
           none]).2 = ["ab12", "ab12"] := by
  constructor <;> rfl

/-- C1 amended: the challenge image is fetched exactly once per query (before
the retry loop), and every submission attempt reuses the single resolved
captcha text — all submitted captcha values are equal. -/
theorem captcha_fetched_once_and_reused (cc sc ccc st q y : String)
    (solver : List Nat → Option String) (captchaFetch : Option (List Nat))
    (responses : List AttemptResponse) :
    countFetch (perform_search_and_extract cc sc ccc st q y solver captchaFetch
        responses).2 = 1 ∧
      ∃ c n, submitCaptchas (perform_search_and_extract cc sc ccc st q y solver
        captchaFetch responses).2 = List.replicate n c := by
  cases captchaFetch with
  | none =>
      exact ⟨rfl, "", 0, rfl⟩
  | some bs =>
      cases hsv : solver bs with
      | none =>
          simp only [perform_search_and_extract, hsv]
          exact ⟨rfl, "", 0, rfl⟩
      | some s =>
          by_cases hs : s = ""
          · simp only [perform_search_and_extract, hsv, hs, if_pos rfl]
            exact ⟨rfl, "", 0, rfl⟩
          · simp only [perform_search_and_extract, hsv, if_neg hs]
            constructor
            · show countFetch (Event.fetchChallenge :: Event.resolve :: _) = 1
              have h0 := countFetch_runAttempts (mkPayload cc sc ccc st q y s) responses
              unfold countFetch at h0 ⊢
              simp [List.count_cons, h0]
            · refine ⟨(mkPayload cc sc ccc st q y s).captcha,
                (submitCaptchas (runAttempts (mkPayload cc sc ccc st q y s)
                  responses).2).length, ?_⟩
              show submitCaptchas (Event.fetchChallenge :: Event.resolve :: _) = _
              unfold submitCaptchas
              simp only [List.filterMap_cons]
              exact submitCaptchas_runAttempts (mkPayload cc sc ccc st q y s) responses

/-- C2 counterexample: a concrete query that succeeds with one record, yet
zero search-outcome events reach the record-sink's search-log interface — not
exactly one, so the claim as stated is false (the outcome is reported only via
the process logger). -/
theorem search_outcome_counterexample :
    (perform_search_and_extract "c" "s" "x" "party_name" "kumar" "2024"
        (fun _ => some "ab12") (some [0])
        [AttemptResponse.page
           (some ⟨[⟨["h1", "h2", "h3", "h4"]⟩,
                   ⟨["W.P.123/2024", "Kumar vs State", "12-01-2025", "Pending"]⟩]⟩) none,
         AttemptResponse.transportError, AttemptResponse.transportError]).1
      = [⟨"W.P.123/2024", "Kumar vs State", "12-01-2025", "Pending"⟩] ∧
    countLogSearch (perform_search_and_extract "c" "s" "x" "party_name" "kumar" "2024"
        (fun _ => some "ab12") (some [0])
        [AttemptResponse.page
           (some ⟨[⟨["h1", "h2", "h3", "h4"]⟩,
                   ⟨["W.P.123/2024", "Kumar vs State", "12-01-2025", "Pending"]⟩]⟩) none,
         AttemptResponse.transportError, AttemptResponse.transportError]).2 = 0 ∧
    ¬ countLogSearch (perform_search_and_extract "c" "s" "x" "party_name" "kumar" "2024"
        (fun _ => some "ab12") (some [0])
        [AttemptResponse.page
           (some ⟨[⟨["h1", "h2", "h3", "h4"]⟩,
                   ⟨["W.P.123/2024", "Kumar vs State", "12-01-2025", "Pending"]⟩]⟩) none,
         AttemptResponse.transportError, AttemptResponse.transportError]).2 = 1 := by
  refine ⟨rfl, rfl, ?_⟩
  decide

/-- C2 amended: `perform_search_and_extract` emits no search-outcome event at
all: for every query and every outcome (success, captcha failure, transport
failure, retry exhaustion) the number of `log_search` calls in the trace is
zero — `database.log_search` is imported but never invoked. -/
theorem no_search_outcome_event (cc sc ccc st q y : String)
    (solver : List Nat → Option String) (captchaFetch : Option (List Nat))
    (responses : List AttemptResponse) :
    countLogSearch (perform_search_and_extract cc sc ccc st q y solver captchaFetch
      responses).2 = 0 := by
  cases captchaFetch with
  | none => rfl
  | some bs =>
      cases hsv : solver bs with
      | none =>
          simp only [perform_search_and_extract, hsv]
          rfl
      | some s =>
          by_cases hs : s = ""
          · simp only [perform_search_and_extract, hsv, hs, if_pos rfl]
            rfl
          · simp only [perform_search_and_extract, hsv, if_neg hs]
            show countLogSearch (Event.fetchChallenge :: Event.resolve :: _) = 0
            have h0 := countLogSearch_runAttempts (mkPayload cc sc ccc st q y s) responses
            unfold countLogSearch at h0 ⊢
            simp [List.count_cons, h0]

/-- C3: on a response whose primary table `table#searchResults` is absent but
whose fallback table `dispTable` is present with one parseable data row, the
code locates the fallback yet sleeps ~2s and retries instead of parsing it; a
full run of three such attempts returns `[]` with three sleeps, even though
parsing the fallback's data rows would have yielded a record. -/
theorem fallback_table_never_parsed :
    (perform_search_and_extract "c" "s" "x" "party_name" "kumar" "2024"
        (fun _ => some "ab12") (some [0])
        (List.replicate 3 (AttemptResponse.page none
          (some ⟨[⟨["h1", "h2", "h3", "h4"]⟩,
                  ⟨["W.P.123/2024", "Kumar vs State", "12-01-2025", "Pending"]⟩]⟩)))).1
      = [] ∧
    countSleep (perform_search_and_extract "c" "s" "x" "party_name" "kumar" "2024"
        (fun _ => some "ab12") (some [0])
        (List.replicate 3 (AttemptResponse.page none
          (some ⟨[⟨["h1", "h2", "h3", "h4"]⟩,
                  ⟨["W.P.123/2024", "Kumar vs State", "12-01-2025", "Pending"]⟩]⟩)))).2
      = 3 ∧
    parseRows ((⟨[⟨["h1", "h2", "h3", "h4"]⟩,
        ⟨["W.P.123/2024", "Kumar vs State", "12-01-2025", "Pending"]⟩]⟩ :
          ResultsTable).rows.drop 1)
      = Except.ok [⟨"W.P.123/2024", "Kumar vs State", "12-01-2025", "Pending"⟩] :=
  ⟨rfl, rfl, rfl⟩

/-- C4 counterexample: an option whose display text carries the "Select"
marker but whose value is a normal code is retained by the court listing, and
an option whose value is the zero sentinel is retained by the bench listing —
so sentinel filtering does not match on value AND text in both listings. -/
theorem sentinel_filter_counterexample :
    enumerate_high_courts [⟨some "7", "Select High Court"⟩]
      = [⟨"7", "Select High Court"⟩] ∧
    enumerate_benches [⟨"Mumbai Bench", "0"⟩] = [⟨"Mumbai Bench", "0"⟩] :=
  ⟨rfl, rfl⟩

/-- C4 amended: each listing applies only its own sentinel test.  The court
listing drops an option whose value attribute is absent, whitespace-only, or
`"0"` (its display text is never consulted); the bench listing drops an option
whose value is whitespace-only or whose display text contains the
case-sensitive marker `"Select"` (the zero value is not excluded). -/
theorem sentinel_filter_amended :
    (∀ (pre post : List CourtOption) (opt : CourtOption),
        opt.value = none ∨ pyStrip (opt.value.getD "") = "" ∨ opt.value = some "0" →
        enumerate_high_courts (pre ++ opt :: post)
          = enumerate_high_courts (pre ++ post)) ∧
    (∀ (pre post : List BenchOption) (o : BenchOption),
        pyStrip o.value = "" ∨ strContains o.text "Select" = true →
        enumerate_benches (pre ++ o :: post) = enumerate_benches (pre ++ post)) := by
  constructor
  · intro pre post opt h
    have hf : courtOptionEntry opt = none := by
      unfold courtOptionEntry
      rcases h with h | h | h
      · rw [h]
      · cases hv : opt.value with
        | none => rfl
        | some val =>
            rw [hv] at h
            simp only [Option.getD_some] at h
            simp [pyTruthy, h]
      · rw [h]
        simp [pyTruthy]
    unfold enumerate_high_courts
    rw [List.filterMap_append, List.filterMap_append, List.filterMap_cons, hf]
  · intro pre post o h
    have hf : benchKeep o = false := by
      unfold benchKeep
      rcases h with h | h
      · simp [pyTruthy, h]
      · simp [h]
    unfold enumerate_benches
    rw [List.filter_append, List.filter_append, List.filter_cons, hf]
    simp

/-- Witness for C4 amended at concrete inputs. -/
theorem sentinel_filter_amended_witness :
    enumerate_high_courts [⟨some "0", "Delhi"⟩, ⟨some "7", "Delhi"⟩]
      = enumerate_high_courts [⟨some "7", "Delhi"⟩] ∧
    enumerate_benches [⟨"Select Bench", "5"⟩, ⟨"Main", "1"⟩]
      = enumerate_benches [⟨"Main", "1"⟩] :=
  ⟨sentinel_filter_amended.1 [] [⟨some "7", "Delhi"⟩] ⟨some "0", "Delhi"⟩
      (Or.inr (Or.inr rfl)),
   sentinel_filter_amended.2 [] [⟨"Main", "1"⟩] ⟨"Select Bench", "5"⟩ (Or.inr rfl)⟩

/-- A successful attempt outcome comes from a present primary table whose data
rows all parsed. -/
lemma attemptOutcome_success_shape (r : AttemptResponse) (recs : List CaseRecord)
    (h : attemptOutcome r = .success recs) :
    ∃ tbl dt, r = AttemptResponse.page (some tbl) dt ∧
      parseRows (tbl.rows.drop 1) = .ok recs := by
  cases r with
  | transportError => simp [attemptOutcome] at h
  | page sr dt =>
      cases sr with
      | none => simp [attemptOutcome] at h
      | some tbl =>
          refine ⟨tbl, dt, rfl, ?_⟩
          cases hp : parseRows (tbl.rows.drop 1) with
          | ok recs2 =>
              simp only [attemptOutcome] at h
              rw [hp] at h
              simp at h
              rw [h]
          | error e =>
              simp only [attemptOutcome] at h
              rw [hp] at h
              simp at h

/-- The result of `perform_search_and_extract` is either `[]` (early return)
or the retry loop's result on the payload built from the resolved captcha. -/
lemma perform_result_cases (cc sc ccc st q y : String)
    (solver : List Nat → Option String) (captchaFetch : Option (List Nat))
    (responses : List AttemptResponse) :
    (perform_search_and_extract cc sc ccc st q y solver captchaFetch responses).1 = []
    ∨ ∃ bs s, captchaFetch = some bs ∧ solver bs = some s ∧ s ≠ "" ∧
        (perform_search_and_extract cc sc ccc st q y solver captchaFetch responses).1
          = (runAttempts (mkPayload cc sc ccc st q y s) responses).1 := by
  cases captchaFetch with
  | none => exact Or.inl rfl
  | some bs =>
      cases hsv : solver bs with
      | none =>
          left
          simp [perform_search_and_extract, hsv]
      | some s =>
          by_cases hs : s = ""
          · left
            simp [perform_search_and_extract, hsv, hs]
          · right
            exact ⟨bs, s, rfl, hsv, hs, by simp [perform_search_and_extract, hsv, hs]⟩

/-- C10: the Parse step reads columns 0..3 of every data row without a length
check, and this is safe in the following sense: a data row with fewer than 4
cells makes the whole attempt fail via the exception path (part 1), every
record the function returns was extracted — all four fields — from a data row
of a primary results table with at least 4 cells (part 2), and when no attempt
parses successfully the function returns the empty sequence rather than a
partially populated record (part 3). -/
theorem short_row_aborts_attempt :
    (∀ (tbl : ResultsTable) (dt : Option ResultsTable) (row : Row),
        row ∈ tbl.rows.drop 1 → row.cells.length < 4 →
        attemptOutcome (AttemptResponse.page (some tbl) dt) = AttemptOutcome.error) ∧
    (∀ (cc sc ccc st q y : String) (solver : List Nat → Option String)
        (captchaFetch : Option (List Nat)) (responses : List AttemptResponse)
        (rec : CaseRecord),
        rec ∈ (perform_search_and_extract cc sc ccc st q y solver captchaFetch
          responses).1 →
        ∃ r ∈ responses, ∃ tbl dt, r = AttemptResponse.page (some tbl) dt ∧
          ∃ row ∈ tbl.rows.drop 1, 4 ≤ row.cells.length ∧
            extractRecord row.cells = some rec) ∧
    (∀ (cc sc ccc st q y : String) (solver : List Nat → Option String)
        (captchaFetch : Option (List Nat)) (responses : List AttemptResponse),
        (∀ r ∈ responses, ∀ recs, attemptOutcome r ≠ AttemptOutcome.success recs) →
        (perform_search_and_extract cc sc ccc st q y solver captchaFetch
          responses).1 = []) := by
  refine ⟨?_, ?_, ?_⟩
  · intro tbl dt row hrow hshort
    have hp := parseRows_short_row (tbl.rows.drop 1) row hrow hshort
    simp only [attemptOutcome]
    rw [hp]
  · intro cc sc ccc st q y solver captchaFetch responses rec hmem
    rcases perform_result_cases cc sc ccc st q y solver captchaFetch responses with
      h0 | ⟨bs, s, hbs, hsv, hs, hrun⟩
    · rw [h0] at hmem
      simp at hmem
    · rw [hrun] at hmem
      obtain ⟨r, hr, recs, hout, hrec⟩ :=
        runAttempts_mem (mkPayload cc sc ccc st q y s) responses rec hmem
      obtain ⟨tbl, dt, rfl, hparse⟩ := attemptOutcome_success_shape r recs hout
      obtain ⟨row, hrow, hext⟩ := parseRows_mem (tbl.rows.drop 1) recs hparse rec hrec
      obtain ⟨hlen, _⟩ := extractRecord_cells row.cells rec hext
      exact ⟨AttemptResponse.page (some tbl) dt, hr, tbl, dt, rfl, row, hrow, hlen, hext⟩
  · intro cc sc ccc st q y solver captchaFetch responses hfail
    rcases perform_result_cases cc sc ccc st q y solver captchaFetch responses with
      h0 | ⟨bs, s, hbs, hsv, hs, hrun⟩
    · exact h0
    · rw [hrun]
      exact runAttempts_all_fail (mkPayload cc sc ccc st q y s) responses hfail

/-- Witness for C10 at concrete inputs. -/
theorem short_row_aborts_attempt_witness :
    (attemptOutcome (AttemptResponse.page
        (some ⟨[⟨["h1", "h2", "h3", "h4"]⟩, ⟨["only-two", "cells"]⟩]⟩) none)
      = AttemptOutcome.error) ∧
    (∃ r ∈ [AttemptResponse.page
          (some ⟨[⟨["h1", "h2", "h3", "h4"]⟩, ⟨["a", "b", "c", "d"]⟩]⟩)
          (none : Option ResultsTable)],
        ∃ tbl dt, r = AttemptResponse.page (some tbl) dt ∧
          ∃ row ∈ tbl.rows.drop 1, 4 ≤ row.cells.length ∧
            extractRecord row.cells = some ⟨"a", "b", "c", "d"⟩) ∧
    ((perform_search_and_extract "c" "s" "x" "party_name" "kumar" "2024"
        (fun _ => some "ab12") (some [0]) [AttemptResponse.transportError]).1 = []) :=
  ⟨short_row_aborts_attempt.1 ⟨[⟨["h1", "h2", "h3", "h4"]⟩, ⟨["only-two", "cells"]⟩]⟩
      none ⟨["only-two", "cells"]⟩ (by decide) (by decide),
   short_row_aborts_attempt.2.1 "c" "s" "x" "party_name" "kumar" "2024"
      (fun _ => some "ab12") (some [0])
      [AttemptResponse.page
        (some ⟨[⟨["h1", "h2", "h3", "h4"]⟩, ⟨["a", "b", "c", "d"]⟩]⟩) none]
      ⟨"a", "b", "c", "d"⟩ (by decide),
   short_row_aborts_attempt.2.2 "c" "s" "x" "party_name" "kumar" "2024"
      (fun _ => some "ab12") (some [0]) [AttemptResponse.transportError]
      (by
        intro r hr recs
        simp only [List.mem_singleton] at hr
        subst hr
        simp [attemptOutcome])⟩
